import Mathlib

/-!
Verification of `tailscale_notifier` (src/main.rs): a single-shot utility that
fetches a device list, classifies devices by credential expiration, and selects
one push-notification message.

Shallow embedding conventions:
* Timestamps are `Int` seconds (UTC).  `chrono::Duration::num_days` truncates
  the signed duration toward zero, which at second granularity is
  `Int.tdiv seconds 86400`.
* The classification loop (main.rs lines 94-113) pushes each device, in input
  order, onto `devices_expiring` / `devices_expired`; the structural recursion
  `classify` below conses the head device onto the classification of the tail,
  producing the same ordered sequences.
* The message-selection `if`/`else if` chain (main.rs lines 116-138) indexes
  `devices_expired[0]` in two branches; in Rust this panics when the vector is
  empty, so the embedding uses the total lookup `[0]?` and an
  `Option String` result, where `none` models the panic (no message sent).
* JSON deserialization (serde derive on `Device` / `Devices`) is modelled over
  an explicit `Json` tree: struct fields are gathered in order, unknown keys
  are skipped, duplicate or ill-typed known keys and missing fields fail, and
  a `Vec` fails as soon as one element fails.  RFC 3339 timestamp parsing
  (`chrono::DateTime::parse_from_rfc3339`, an external library call) is an
  abstract parameter `parseTs : String → Option Int`.
-/

namespace TailscaleNotifier

/-- One fleet member, from `struct Device` in main.rs: a `hostname` string and
an `expires` UTC timestamp (here: seconds). -/
structure Device where
  hostname : String
  expires : Int
deriving DecidableEq, Repr

/-- Seconds in one day, the divisor used by `chrono::Duration::num_days`. -/
def secsPerDay : Int := 86400

/-- `chrono::Duration::num_days` on a duration of `secs` seconds: whole days,
truncating toward zero (Rust `i64` division). -/
def numDays (secs : Int) : Int := secs.tdiv secsPerDay

/-- `(device.expires - utc).num_days()` from main.rs line 95 (recomputed again
at line 126 in the single-expiring branch). -/
def daysUntilExpiration (device : Device) (now : Int) : Int :=
  numDays (device.expires - now)

/-- The classification loop of main.rs lines 94-113: for each device in input
order, with `days = daysUntilExpiration`, devices with `days < 15` are pushed
onto the expiring list when `days > 0` or `days = 0`, onto the expired list
when `days < 0`; devices with `days ≥ 15` are dropped.  Result:
`(devices_expiring, devices_expired)`. -/
def classify : List Device → Int → List Device × List Device
  | [], _ => ([], [])
  | device :: rest, now =>
    let tail := classify rest now
    let days := daysUntilExpiration device now
    if days < 15 then
      if 0 < days then (device :: tail.1, tail.2)
      else if days < 0 then (tail.1, device :: tail.2)
      else (device :: tail.1, tail.2)
    else tail

/-- The per-device message of main.rs lines 128-132: "... is expiring today!"
when the recomputed days are 0, else "... is expiring in <days> days!". -/
def expiringDeviceMessage (device : Device) (now : Int) : String :=
  let days := daysUntilExpiration device now
  if days = 0 then device.hostname ++ " is expiring today!"
  else device.hostname ++ " is expiring in " ++ toString days ++ " days!"

/-- The message-selection chain of main.rs lines 116-138.  Note that the
`devices_expiring.len() == 1` branch reads `devices_expired[0]` (line 124),
exactly as the source does; `[0]?` returns `none` there when the expired list
is empty, modelling the Rust index panic (no message produced). -/
def selectMessage (devicesExpiring devicesExpired : List Device) (now : Int) :
    Option String :=
  if devicesExpired.length = 1 then
    (devicesExpired[0]?).map (fun device => device.hostname ++ " has expired!")
  else if 1 < devicesExpired.length then
    some (toString devicesExpired.length ++ " devices are expired!")
  else if devicesExpiring.length = 1 then
    (devicesExpired[0]?).map (fun device => expiringDeviceMessage device now)
  else
    some (toString devicesExpiring.length ++ " devices are expiring soon!")

/-- The classify-then-select pipeline on an already-parsed device list:
`none` models a run that panics before sending any message. -/
def runMessage (devices : List Device) (now : Int) : Option String :=
  let buckets := classify devices now
  selectMessage buckets.1 buckets.2 now

/-- The Boolean test for membership in the expiring bucket. -/
def isExpiring (device : Device) (now : Int) : Bool :=
  0 ≤ daysUntilExpiration device now && daysUntilExpiration device now < 15

/-- The Boolean test for membership in the expired bucket. -/
def isExpired (device : Device) (now : Int) : Bool :=
  daysUntilExpiration device now < 0

/-- A JSON value, for modelling the serde deserialization of the inventory
response body. -/
inductive Json where
  | str : String → Json
  | num : Int → Json
  | bool : Bool → Json
  | null : Json
  | arr : List Json → Json
  | obj : List (String × Json) → Json

/-- serde's "expected a string" check: the JSON value must be a string. -/
def asString : Json → Option String
  | Json.str s => some s
  | _ => none

/-- serde derive field loop for `struct Device`: walk the object's entries in
order, capturing `hostname` (a JSON string) and `expires` (a JSON string fed
through the RFC 3339 parser `parseTs`); a duplicate known field, an ill-typed
known field, or a failing timestamp parse fails; unknown keys are skipped;
both fields must be present at the end. -/
def deserializeDeviceFields (parseTs : String → Option Int) :
    List (String × Json) → Option String → Option Int → Option Device
  | [], some h, some e => some ⟨h, e⟩
  | [], _, _ => none
  | (key, value) :: rest, hostnameField, expiresField =>
    if key = "hostname" then
      if hostnameField.isSome then none
      else
        (asString value).bind
          (fun s => deserializeDeviceFields parseTs rest (some s) expiresField)
    else if key = "expires" then
      if expiresField.isSome then none
      else
        ((asString value).bind parseTs).bind
          (fun t => deserializeDeviceFields parseTs rest hostnameField (some t))
    else
      deserializeDeviceFields parseTs rest hostnameField expiresField

/-- Deserialize one `Device`: must be a JSON object. -/
def deserializeDevice (parseTs : String → Option Int) : Json → Option Device
  | Json.obj fields => deserializeDeviceFields parseTs fields none none
  | _ => none

/-- serde sequence visitor for `Vec<Device>`: elements in order, failing as
soon as one element fails (no per-device partial recovery). -/
def deserializeDeviceItems (parseTs : String → Option Int) :
    List Json → Option (List Device)
  | [] => some []
  | item :: rest =>
    match deserializeDevice parseTs item with
    | some device =>
      match deserializeDeviceItems parseTs rest with
      | some devices => some (device :: devices)
      | none => none
    | none => none

/-- Deserialize the `devices` value: must be a JSON array. -/
def deserializeDeviceList (parseTs : String → Option Int) : Json → Option (List Device)
  | Json.arr items => deserializeDeviceItems parseTs items
  | _ => none

/-- serde derive field loop for `struct Devices`: capture the `devices` key,
skip unknown keys, fail on a duplicate key or a failing element. -/
def deserializeDevicesFields (parseTs : String → Option Int) :
    List (String × Json) → Option (List Device) → Option (List Device)
  | [], some ds => some ds
  | [], none => none
  | (key, value) :: rest, devicesField =>
    if key = "devices" then
      match devicesField with
      | some _ => none
      | none =>
        match deserializeDeviceList parseTs value with
        | some ds => deserializeDevicesFields parseTs rest (some ds)
        | none => none
    else
      deserializeDevicesFields parseTs rest devicesField

/-- `serde_json::from_str::<Devices>(&req_body)?.devices` (main.rs line 84):
the whole response must be a JSON object with a `devices` array. -/
def deserializeDevices (parseTs : String → Option Int) : Json → Option (List Device)
  | Json.obj fields => deserializeDevicesFields parseTs fields none
  | _ => none

/-- The fetch-classify-select pipeline on a parsed response body: `none`
models a run that aborts (parse failure or index panic) before a notification
is sent. -/
def runPipeline (parseTs : String → Option Int) (body : Json) (now : Int) :
    Option String :=
  match deserializeDevices parseTs body with
  | some devices => runMessage devices now
  | none => none

/-- A concrete stand-in RFC 3339 parser used only to instantiate witnesses:
accepts two fixed timestamp strings. -/
def parseTsExample : String → Option Int
  | "2024-01-01T00:00:00Z" => some 1704067200
  | "2024-01-11T00:00:00Z" => some 1704931200
  | _ => none

/-! ## Shared lemmas -/

/-- The loop of main.rs lines 94-113 computes the stable partition: each
bucket is the order-preserving filter of the input list. -/
theorem classify_eq_filter (devices : List Device) (now : Int) :
    classify devices now =
      (devices.filter (fun d => TailscaleNotifier.isExpiring d now),
       devices.filter (fun d => TailscaleNotifier.isExpired d now)) := by
  induction devices with
  | nil => rfl
  | cons device rest ih =>
    simp only [classify, ih, List.filter_cons, isExpiring, isExpired]
    rcases lt_trichotomy (daysUntilExpiration device now) 0 with h | h | h
    · have h15 : daysUntilExpiration device now < 15 := by omega
      have h0 : ¬ (0:Int) ≤ daysUntilExpiration device now := by omega
      have h0' : ¬ (0:Int) < daysUntilExpiration device now := by omega
      simp [h, h15, h0, h0']
    · simp [h]
    · have h0 : (0:Int) ≤ daysUntilExpiration device now := by omega
      have hn : ¬ daysUntilExpiration device now < 0 := by omega
      by_cases h15 : daysUntilExpiration device now < 15
      · simp [h, h15, h0, hn]
      · simp [h15, h0, hn]

/-- If a device object carries an `expires` entry whose string fails the
timestamp parser, the whole device fails to deserialize, whatever fields
come before or after and whatever has been captured so far. -/
theorem deserializeDeviceFields_bad_expires (parseTs : String → Option Int)
    (s : String) (hbad : parseTs s = none) :
    ∀ (dfields : List (String × Json)), ("expires", Json.str s) ∈ dfields →
      ∀ hostnameField expiresField,
        deserializeDeviceFields parseTs dfields hostnameField expiresField = none := by
  intro dfields
  induction dfields with
  | nil => intro h; cases h
  | cons entry rest ih =>
    intro hmem hostnameField expiresField
    obtain ⟨key, value⟩ := entry
    simp only [deserializeDeviceFields]
    by_cases hk1 : key = "hostname"
    · have hmem' : ("expires", Json.str s) ∈ rest := by
        rcases List.mem_cons.mp hmem with heq | h
        · exfalso
          injection heq with h1 h2
          rw [hk1] at h1
          exact absurd h1 (by decide)
        · exact h
      rw [if_pos hk1]
      cases hostnameField with
      | some h => rfl
      | none =>
        cases value with
        | str s2 => simpa [asString] using ih hmem' (some s2) expiresField
        | num n => rfl
        | bool b => rfl
        | null => rfl
        | arr a => rfl
        | obj o => rfl
    · by_cases hk2 : key = "expires"
      · rw [if_neg hk1, if_pos hk2]
        cases expiresField with
        | some t => rfl
        | none =>
          cases value with
          | str s2 =>
            by_cases hs : s2 = s
            · subst hs
              simp [asString, hbad]
            · have hmem' : ("expires", Json.str s) ∈ rest := by
                rcases List.mem_cons.mp hmem with heq | h
                · exfalso
                  injection heq with h1 h2
                  injection h2 with h3
                  exact hs h3.symm
                · exact h
              simp only [asString, Option.some_bind, Option.isSome_none,
                Bool.false_eq_true, if_false]
              cases hp : parseTs s2 with
              | none => rfl
              | some t => exact ih hmem' hostnameField (some t)
          | num n => rfl
          | bool b => rfl
          | null => rfl
          | arr a => rfl
          | obj o => rfl
      · have hmem' : ("expires", Json.str s) ∈ rest := by
          rcases List.mem_cons.mp hmem with heq | h
          · exfalso
            injection heq with h1 h2
            exact hk2 h1.symm
          · exact h
        rw [if_neg hk1, if_neg hk2]
        exact ih hmem' hostnameField expiresField

/-- If one element of the `devices` array fails to deserialize, the whole
array fails (serde's fail-fast sequence visitor). -/
theorem deserializeDeviceItems_bad (parseTs : String → Option Int) :
    ∀ (items : List Json) (item : Json), item ∈ items →
      deserializeDevice parseTs item = none →
      deserializeDeviceItems parseTs items = none := by
  intro items
  induction items with
  | nil => intro item h; cases h
  | cons j rest ih =>
    intro item hmem hnone
    simp only [deserializeDeviceItems]
    rcases List.mem_cons.mp hmem with heq | h
    · rw [← heq, hnone]
    · cases hd : deserializeDevice parseTs j with
      | none => rfl
      | some device => rw [ih item h hnone]

/-- If the value under a `devices` key fails to deserialize as a device
list, the whole top-level object fails. -/
theorem deserializeDevicesFields_bad (parseTs : String → Option Int) (v : Json)
    (hv : deserializeDeviceList parseTs v = none) :
    ∀ (fields : List (String × Json)), ("devices", v) ∈ fields →
      ∀ devicesField, deserializeDevicesFields parseTs fields devicesField = none := by
  intro fields
  induction fields with
  | nil => intro h; cases h
  | cons entry rest ih =>
    intro hmem devicesField
    obtain ⟨key, value⟩ := entry
    simp only [deserializeDevicesFields]
    by_cases hk : key = "devices"
    · rw [if_pos hk]
      cases devicesField with
      | some ds => rfl
      | none =>
        cases hd : deserializeDeviceList parseTs value with
        | none => rfl
        | some ds =>
          have hmem' : ("devices", v) ∈ rest := by
            rcases List.mem_cons.mp hmem with heq | h
            · exfalso
              injection heq with h1 h2
              rw [← h2] at hd
              rw [hv] at hd
              cases hd
            · exact h
          exact ih hmem' (some ds)
    · have hmem' : ("devices", v) ∈ rest := by
        rcases List.mem_cons.mp hmem with heq | h
        · exfalso
          injection heq with h1 h2
          exact hk h1.symm
        · exact h
      rw [if_neg hk]
      exact ih hmem' devicesField

/-! ## Claim theorems -/

/-- C9.  Classification is a stable partition: each output bucket is a
sublist of the input list, i.e. its devices appear in the same relative
order as in the input. -/
theorem buckets_stable_partition (devices : List Device) (now : Int) :
    (classify devices now).1.Sublist devices
  ∧ (classify devices now).2.Sublist devices := by
  rw [classify_eq_filter]
  exact ⟨List.filter_sublist _, List.filter_sublist _⟩

/-- C3.  With `days` the truncated-toward-zero whole-day count of
`expires - now`: a device with `days ≥ 15` lands in neither bucket, one with
`0 ≤ days < 15` lands in the expiring bucket and never the expired bucket,
and one with `days < 0` lands in the expired bucket and never the expiring
bucket. -/
theorem bucket_membership_by_days (devices : List Device) (now : Int)
    (d : Device) (hd : d ∈ devices) :
    (15 ≤ daysUntilExpiration d now →
        d ∉ (classify devices now).1 ∧ d ∉ (classify devices now).2)
  ∧ (0 ≤ daysUntilExpiration d now → daysUntilExpiration d now < 15 →
        d ∈ (classify devices now).1 ∧ d ∉ (classify devices now).2)
  ∧ (daysUntilExpiration d now < 0 →
        d ∈ (classify devices now).2 ∧ d ∉ (classify devices now).1) := by
  rw [classify_eq_filter]
  refine ⟨fun h15 => ⟨?_, ?_⟩, fun h0 h15 => ⟨?_, ?_⟩, fun hneg => ⟨?_, ?_⟩⟩ <;>
    simp [List.mem_filter, isExpiring, isExpired, hd] <;> omega

/-- C3 witness: a 15-day device is dropped, a 3-day device is expiring only,
a 5-days-past device is expired only. -/
theorem bucket_membership_by_days_witness :
    ((Device.mk "far" 1296000) ∉
        (classify [Device.mk "far" 1296000, Device.mk "soon" 259200,
          Device.mk "gone" (-432000)] 0).1
      ∧ (Device.mk "far" 1296000) ∉
        (classify [Device.mk "far" 1296000, Device.mk "soon" 259200,
          Device.mk "gone" (-432000)] 0).2)
  ∧ ((Device.mk "soon" 259200) ∈
        (classify [Device.mk "far" 1296000, Device.mk "soon" 259200,
          Device.mk "gone" (-432000)] 0).1
      ∧ (Device.mk "soon" 259200) ∉
        (classify [Device.mk "far" 1296000, Device.mk "soon" 259200,
          Device.mk "gone" (-432000)] 0).2)
  ∧ ((Device.mk "gone" (-432000)) ∈
        (classify [Device.mk "far" 1296000, Device.mk "soon" 259200,
          Device.mk "gone" (-432000)] 0).2
      ∧ (Device.mk "gone" (-432000)) ∉
        (classify [Device.mk "far" 1296000, Device.mk "soon" 259200,
          Device.mk "gone" (-432000)] 0).1) :=
  ⟨(bucket_membership_by_days _ 0 _ (by decide)).1 (by decide),
   (bucket_membership_by_days _ 0 _ (by decide)).2.1 (by decide) (by decide),
   (bucket_membership_by_days _ 0 _ (by decide)).2.2 (by decide)⟩

/-- C8.  Whenever classification leaves exactly one device in the expired
bucket, the run's message is "<hostname> has expired!" for that device,
whatever the expiring bucket holds. -/
theorem single_expired_message (devices : List Device) (now : Int) (d : Device)
    (h : (classify devices now).2 = [d]) :
    runMessage devices now = some (d.hostname ++ " has expired!") := by
  simp only [runMessage, h, selectMessage, List.length_singleton, if_pos rfl]
  rfl

/-- C8 witness: one device five days past expiry. -/
theorem single_expired_message_witness :
    runMessage [Device.mk "h" (-432000)] 0
      = some ((Device.mk "h" (-432000)).hostname ++ " has expired!") :=
  single_expired_message [Device.mk "h" (-432000)] 0 (Device.mk "h" (-432000))
    (by decide)

/-- C4.  Message selection is a strict priority chain: when the expired
bucket is nonempty its message is independent of the expiring bucket; one
expired device gives the "has expired" message; more than one gives the
count message; with no expired devices the single-expiring branch is
consulted before the fallback, and the fallback fires exactly when the
expiring count is not one. -/
theorem message_priority (devicesExpiring devicesExpiring' devicesExpired :
    List Device) (now : Int) :
    (devicesExpired ≠ [] →
      selectMessage devicesExpiring devicesExpired now
        = selectMessage devicesExpiring' devicesExpired now)
  ∧ (∀ d, devicesExpired = [d] →
      selectMessage devicesExpiring devicesExpired now
        = some (d.hostname ++ " has expired!"))
  ∧ (1 < devicesExpired.length →
      selectMessage devicesExpiring devicesExpired now
        = some (toString devicesExpired.length ++ " devices are expired!"))
  ∧ (devicesExpired = [] → devicesExpiring.length = 1 →
      selectMessage devicesExpiring devicesExpired now
        = (devicesExpired[0]?).map (fun device => expiringDeviceMessage device now))
  ∧ (devicesExpired = [] → devicesExpiring.length ≠ 1 →
      selectMessage devicesExpiring devicesExpired now
        = some (toString devicesExpiring.length ++ " devices are expiring soon!")) := by
  refine ⟨?_, ?_, ?_, ?_, ?_⟩
  · intro hne
    by_cases h1 : devicesExpired.length = 1
    · simp only [selectMessage, if_pos h1]
    · have h2 : 1 < devicesExpired.length := by
        cases devicesExpired with
        | nil => exact absurd rfl hne
        | cons a l => simp only [List.length_cons] at h1 ⊢; omega
      simp only [selectMessage, if_neg h1, if_pos h2]
  · intro d hd
    subst hd
    simp only [selectMessage, List.length_singleton, if_pos rfl]
    rfl
  · intro h2
    have h1 : ¬ devicesExpired.length = 1 := by omega
    simp only [selectMessage, if_neg h1, if_pos h2]
  · intro he h1
    subst he
    simp only [selectMessage, List.length_nil, if_pos h1]
    rfl
  · intro he h1
    subst he
    simp only [selectMessage, List.length_nil, if_neg h1]
    rfl

/-- C4 witness: the four priority levels exercised on concrete buckets. -/
theorem message_priority_witness :
    (selectMessage [Device.mk "a" 0] [Device.mk "b" 0] 0
        = selectMessage [] [Device.mk "b" 0] 0)
  ∧ (selectMessage [Device.mk "a" 0] [Device.mk "b" 0] 0
        = some ((Device.mk "b" 0).hostname ++ " has expired!"))
  ∧ (selectMessage [] [Device.mk "b" 0, Device.mk "c" 0] 0
        = some (toString ([Device.mk "b" 0, Device.mk "c" 0] : List Device).length
            ++ " devices are expired!"))
  ∧ (selectMessage [Device.mk "a" 0] [] 0
        = (([] : List Device)[0]?).map (fun device => expiringDeviceMessage device 0))
  ∧ (selectMessage [Device.mk "a" 0, Device.mk "b" 0] [] 0
        = some (toString ([Device.mk "a" 0, Device.mk "b" 0] : List Device).length
            ++ " devices are expiring soon!")) :=
  ⟨(message_priority [Device.mk "a" 0] [] [Device.mk "b" 0] 0).1 (by decide),
   (message_priority [Device.mk "a" 0] [] [Device.mk "b" 0] 0).2.1
      (Device.mk "b" 0) rfl,
   (message_priority [] [] [Device.mk "b" 0, Device.mk "c" 0] 0).2.2.1 (by decide),
   (message_priority [Device.mk "a" 0] [] [] 0).2.2.2.1 rfl (by decide),
   (message_priority [Device.mk "a" 0, Device.mk "b" 0] [] [] 0).2.2.2.2 rfl
      (by decide)⟩

/-- C5 counterexample: a run with one expiring device (2 days out) and no
expired device reaches message selection yet produces no message — the
single-expiring branch dies on `devices_expired[0]`, so "exactly one message
is produced per run" fails as stated. -/
theorem message_selection_aborts_cex :
    (classify [Device.mk "echo" 172800] 0).2 = []
  ∧ (classify [Device.mk "echo" 172800] 0).1.length = 1
  ∧ runMessage [Device.mk "echo" 172800] 0 = none := by decide

/-- C5 amended: except in the single-expiring/zero-expired case (where
selection aborts on the out-of-bounds index), exactly one message is
produced; in the fallback case — expired empty and expiring count not one —
it is "<N> devices are expiring soon!" with N the expiring count, including
N = 0 when both buckets are empty. -/
theorem message_produced_unless_single_expiring
    (devicesExpiring devicesExpired : List Device) (now : Int) :
    (¬ (devicesExpired = [] ∧ devicesExpiring.length = 1) →
      (selectMessage devicesExpiring devicesExpired now).isSome = true)
  ∧ (devicesExpired = [] → devicesExpiring.length ≠ 1 →
      selectMessage devicesExpiring devicesExpired now
        = some (toString devicesExpiring.length ++ " devices are expiring soon!")) := by
  constructor
  · intro hnot
    cases devicesExpired with
    | nil =>
      have h1 : devicesExpiring.length ≠ 1 := fun h => hnot ⟨rfl, h⟩
      simp only [selectMessage, List.length_nil, if_neg h1]
      simp
    | cons a l =>
      by_cases h1 : (a :: l).length = 1
      · simp only [selectMessage, if_pos h1]
        simp
      · have h2 : 1 < (a :: l).length := by
          simp only [List.length_cons] at h1 ⊢; omega
        simp only [selectMessage, if_neg h1, if_pos h2, Option.isSome_some]
  · intro he h1
    subst he
    simp only [selectMessage, List.length_nil, if_neg h1]
    rfl

/-- C5 witness: with both buckets empty a message is produced, namely the
N = 0 fallback. -/
theorem message_produced_unless_single_expiring_witness :
    (selectMessage [] [] 0).isSome = true
  ∧ selectMessage [] [] 0
      = some (toString ([] : List Device).length ++ " devices are expiring soon!") :=
  ⟨(message_produced_unless_single_expiring [] [] 0).1 (by decide),
   (message_produced_unless_single_expiring [] [] 0).2 rfl (by decide)⟩

/-- C6 counterexample: a device whose `expires` lies one hour in the past is
strictly expired in calendar terms, yet its truncated day count is 0, so the
code files it in the expiring bucket, not the expired bucket. -/
theorem past_expires_not_in_expired_bucket_cex :
    (Device.mk "delta" (-3600)).expires < 0
  ∧ (Device.mk "delta" (-3600)) ∈ (classify [Device.mk "delta" (-3600)] 0).1
  ∧ (Device.mk "delta" (-3600)) ∉ (classify [Device.mk "delta" (-3600)] 0).2 := by
  decide

/-- C6 amended: every device whose `expires` is at least one whole day
(86400 s) before the evaluation time — so its truncated day count is
negative — is placed in the expired bucket. -/
theorem full_day_past_in_expired_bucket (devices : List Device) (now : Int)
    (d : Device) (hmem : d ∈ devices)
    (hpast : d.expires + secsPerDay ≤ now) :
    d ∈ (classify devices now).2 := by
  rw [classify_eq_filter, List.mem_filter]
  refine ⟨hmem, ?_⟩
  simp only [isExpired, decide_eq_true_eq, daysUntilExpiration, numDays, secsPerDay] at hpast ⊢
  have hneg : d.expires - now ≤ -86400 := by omega
  have e1 : (d.expires - now).tdiv 86400 = -((-(d.expires - now)).tdiv 86400) := by
    rw [Int.neg_tdiv, neg_neg]
  have e2 : (-(d.expires - now)).tdiv 86400 = (-(d.expires - now)) / 86400 :=
    Int.tdiv_eq_ediv (by omega) (by norm_num)
  have h3 : 1 ≤ (-(d.expires - now)) / 86400 := by omega
  omega

/-- C6 amended witness: a device 25 hours past expiry lands in the expired
bucket. -/
theorem full_day_past_in_expired_bucket_witness :
    (Device.mk "old" (-90000)) ∈ (classify [Device.mk "old" (-90000)] 0).2 :=
  full_day_past_in_expired_bucket [Device.mk "old" (-90000)] 0
    (Device.mk "old" (-90000)) (by decide) (by decide)

/-- C2.  With one device five days from expiry, classification yields an
empty expired bucket and a single expiring device; message selection then
reads index 0 of the empty expired list — `none` in the total embedding —
and the run produces no message instead of the single-expiring message. -/
theorem expired_index_out_of_bounds_reachable :
    (classify [Device.mk "alpha" 432000] 0).2 = []
  ∧ (classify [Device.mk "alpha" 432000] 0).1.length = 1
  ∧ ((classify [Device.mk "alpha" 432000] 0).2)[0]? = none
  ∧ runMessage [Device.mk "alpha" 432000] 0 = none := by decide

/-- C1.  At the failing input — one device three days from expiry, nothing
expired — the source's single-expiring branch indexes the empty
`devices_expired` vector: the run aborts with no message (`none`), although
the per-device message the claim requires, built from the expiring device's
recomputed days, would be "bravo is expiring in 3 days!". -/
theorem single_expiring_run_panics :
    (classify [Device.mk "bravo" 259200] 0).1 = [Device.mk "bravo" 259200]
  ∧ (classify [Device.mk "bravo" 259200] 0).2 = []
  ∧ runMessage [Device.mk "bravo" 259200] 0 = none
  ∧ expiringDeviceMessage (Device.mk "bravo" 259200) 0
      = "bravo is expiring in 3 days!" := by decide

/-- C7.  If any device object in the `devices` array has an `expires` string
the RFC 3339 parser rejects, the whole inventory response fails to parse: no
device list is produced and the pipeline sends nothing. -/
theorem bad_timestamp_fails_whole_parse (parseTs : String → Option Int)
    (topFields : List (String × Json)) (items : List Json)
    (dfields : List (String × Json)) (s : String) (now : Int)
    (hdev : ("devices", Json.arr items) ∈ topFields)
    (hitem : Json.obj dfields ∈ items)
    (hexp : ("expires", Json.str s) ∈ dfields)
    (hbad : parseTs s = none) :
    deserializeDevices parseTs (Json.obj topFields) = none
  ∧ runPipeline parseTs (Json.obj topFields) now = none := by
  have hdevice : deserializeDevice parseTs (Json.obj dfields) = none :=
    deserializeDeviceFields_bad_expires parseTs s hbad dfields hexp none none
  have hitems : deserializeDeviceItems parseTs items = none :=
    deserializeDeviceItems_bad parseTs items (Json.obj dfields) hitem hdevice
  have hlist : deserializeDeviceList parseTs (Json.arr items) = none := hitems
  have htop : deserializeDevices parseTs (Json.obj topFields) = none :=
    deserializeDevicesFields_bad parseTs (Json.arr items) hlist topFields hdev none
  exact ⟨htop, by simp only [runPipeline, htop]⟩

/-- C7 witness: a one-device response whose `expires` is "not-a-date". -/
theorem bad_timestamp_fails_whole_parse_witness :
    deserializeDevices parseTsExample
      (Json.obj [("devices", Json.arr [Json.obj
        [("hostname", Json.str "a"), ("expires", Json.str "not-a-date")]])]) = none
  ∧ runPipeline parseTsExample
      (Json.obj [("devices", Json.arr [Json.obj
        [("hostname", Json.str "a"), ("expires", Json.str "not-a-date")]])]) 0 = none :=
  bad_timestamp_fails_whole_parse parseTsExample _ _ _ "not-a-date" 0
    (List.Mem.head _) (List.Mem.head _)
    (List.Mem.tail _ (List.Mem.head _)) rfl

/-- Inserting an entry with an unknown key anywhere in a device object does
not change the result of the device field loop. -/
theorem deserializeDeviceFields_skip_unknown (parseTs : String → Option Int)
    (key : String) (value : Json)
    (hk1 : key ≠ "hostname") (hk2 : key ≠ "expires") :
    ∀ (pre post : List (String × Json)) hostnameField expiresField,
      deserializeDeviceFields parseTs (pre ++ (key, value) :: post)
          hostnameField expiresField
        = deserializeDeviceFields parseTs (pre ++ post) hostnameField expiresField := by
  intro pre
  induction pre with
  | nil =>
    intro post hostnameField expiresField
    simp only [List.nil_append, deserializeDeviceFields, if_neg hk1, if_neg hk2]
  | cons entry rest ih =>
    intro post hostnameField expiresField
    obtain ⟨k2, v2⟩ := entry
    simp only [List.cons_append, deserializeDeviceFields]
    by_cases h1 : k2 = "hostname"
    · rw [if_pos h1, if_pos h1]
      cases hostnameField with
      | some h => rfl
      | none =>
        cases v2 with
        | str s2 => simpa [asString] using ih post (some s2) expiresField
        | num n => rfl
        | bool b => rfl
        | null => rfl
        | arr a => rfl
        | obj o => rfl
    · by_cases h2 : k2 = "expires"
      · rw [if_neg h1, if_pos h2, if_neg h1, if_pos h2]
        cases expiresField with
        | some t => rfl
        | none =>
          cases v2 with
          | str s2 =>
            simp only [asString, Option.some_bind, Option.isSome_none,
              Bool.false_eq_true, if_false]
            cases hp : parseTs s2 with
            | none => rfl
            | some t => exact ih post hostnameField (some t)
          | num n => rfl
          | bool b => rfl
          | null => rfl
          | arr a => rfl
          | obj o => rfl
      · rw [if_neg h1, if_neg h2, if_neg h1, if_neg h2]
        exact ih post hostnameField expiresField

/-- Inserting an entry with an unknown key anywhere in the top-level object
does not change the result of the `Devices` field loop. -/
theorem deserializeDevicesFields_skip_unknown (parseTs : String → Option Int)
    (key : String) (value : Json) (hk : key ≠ "devices") :
    ∀ (pre post : List (String × Json)) devicesField,
      deserializeDevicesFields parseTs (pre ++ (key, value) :: post) devicesField
        = deserializeDevicesFields parseTs (pre ++ post) devicesField := by
  intro pre
  induction pre with
  | nil =>
    intro post devicesField
    simp only [List.nil_append, deserializeDevicesFields, if_neg hk]
  | cons entry rest ih =>
    intro post devicesField
    obtain ⟨k2, v2⟩ := entry
    simp only [List.cons_append, deserializeDevicesFields]
    by_cases h1 : k2 = "devices"
    · rw [if_pos h1, if_pos h1]
      cases devicesField with
      | some ds => rfl
      | none =>
        cases hd : deserializeDeviceList parseTs v2 with
        | none => rfl
        | some ds => exact ih post (some ds)
    · rw [if_neg h1, if_neg h1]
      exact ih post devicesField

/-- C10.  Unknown JSON fields are tolerated: inserting an entry with an
unrecognised key into a device object, or into the top-level object, never
causes a parse error and leaves the resulting device list unchanged. -/
theorem unknown_fields_ignored (parseTs : String → Option Int)
    (key : String) (value : Json) (pre post : List (String × Json)) :
    (key ≠ "hostname" → key ≠ "expires" →
      deserializeDevice parseTs (Json.obj (pre ++ (key, value) :: post))
        = deserializeDevice parseTs (Json.obj (pre ++ post)))
  ∧ (key ≠ "devices" →
      deserializeDevices parseTs (Json.obj (pre ++ (key, value) :: post))
        = deserializeDevices parseTs (Json.obj (pre ++ post))) := by
  constructor
  · intro h1 h2
    exact deserializeDeviceFields_skip_unknown parseTs key value h1 h2 pre post none none
  · intro h
    exact deserializeDevicesFields_skip_unknown parseTs key value h pre post none

/-- C10 witness: an extra "os" field inside a device object and an extra
"user" field on the top-level object leave both parses unchanged. -/
theorem unknown_fields_ignored_witness :
    deserializeDevice parseTsExample
        (Json.obj ([("hostname", Json.str "a")] ++ ("os", Json.str "linux") ::
          [("expires", Json.str "2024-01-01T00:00:00Z")]))
      = deserializeDevice parseTsExample
        (Json.obj ([("hostname", Json.str "a")] ++
          [("expires", Json.str "2024-01-01T00:00:00Z")]))
  ∧ deserializeDevices parseTsExample
        (Json.obj ([] ++ ("user", Json.str "x") :: [("devices", Json.arr [])]))
      = deserializeDevices parseTsExample
        (Json.obj ([] ++ [("devices", Json.arr [])])) :=
  ⟨(unknown_fields_ignored parseTsExample "os" (Json.str "linux")
      [("hostname", Json.str "a")]
      [("expires", Json.str "2024-01-01T00:00:00Z")]).1 (by decide) (by decide),
   (unknown_fields_ignored parseTsExample "user" (Json.str "x")
      [] [("devices", Json.arr [])]).2 (by decide)⟩

end TailscaleNotifier
